import Mathlib

/-!
Verification of the agent response protocols of `argubots.py`.

The module under verification defines four argument-bot response methods:
`KialoAgent.response`, `ContextualKialoAgent.response`, `RAGAgent.response`
and `AwsomAgent.response`.  They are shallowly embedded below as pure Lean
functions.  Effects are made explicit:

* the external collaborators (`Kialo` retrieval database, the LLM chat
  client) are fields of the agent record, modelled as functions;
* Python's `random.choice(xs)` is modelled by `pyChoice xs r`, which
  receives a draw `r : Nat` and selects index `r % xs.length`; when `r` is
  drawn uniformly from a range that is a multiple of `xs.length`, each
  element is selected with equal probability, which models "uniformly at
  random";
* Python exceptions (`AssertionError`, `IndexError`, and failures of the
  chat-completion call) are modelled with `Except Err`;
* every observable call to a collaborator is recorded in an event trace,
  and the agent object and the dialogue are threaded through the state so
  that (non-)mutation is visible in the result;
* Python's `str.strip()` is modelled by `pyStrip` (drop leading and
  trailing whitespace).
-/

/-- One turn of a dialogue: a speaker together with the text of the turn.
The `Dialogue` container lives outside `argubots.py`; the spec describes it
as an ordered, append-only sequence of speaker/text pairs, and
`argubots.py` accesses a turn `t` only through `t["content"]`. -/
structure Turn where
  speaker : String
  content : String
deriving Repr, DecidableEq

/-- A dialogue transcript: the ordered list of its turns. -/
abbrev Dialogue := List Turn

/-- A role-tagged message sent to the chat-completion capability, as in the
literal dictionaries `{"role": ..., "content": ...}` of `argubots.py`. -/
structure Message where
  role : String
  content : String
deriving Repr, DecidableEq

/-- The list of messages of one chat-completion request. -/
abbrev Messages := List Message

/-- Errors that a `response` call can surface, modelling the Python
exceptions that can escape the corresponding method: `assert` failures,
`IndexError` from `random.choice` on an empty sequence or from indexing an
empty list, and any failure of the chat-completion call (transport, quota,
timeout), carried with its payload. -/
inductive Err where
  | assertionError (msg : String)
  | indexError
  | genError (payload : String)
deriving Repr, DecidableEq

/-- Observable calls an agent makes to its collaborators during one
`response` call: a chat-completion request (`client.chat.completions.create`),
a retrieval request (`kialo.closest_claims`), or a random-walk request
(`kialo.random_chain`). -/
inductive Event where
  | genCall (msgs : Messages) (model : String)
  | closestCall (query : String) (n : Nat) (kind : String)
  | randomChainCall
deriving Repr, DecidableEq

/-- Modelled from the spec: the `Kialo` claim database (`kialo.py` is not
part of the inspected source; only its call sites in `argubots.py` are).
Per the spec, `closest_claims(query, n, kind)` returns up to `n` claims
most similar to `query`, restricted (for `kind = "has_cons"`) to claims
with at least one con child, possibly none; `cons` maps a claim to the
ordered list of its con (opposing) children, empty if there are none; and
`random_chain r` is a random root-to-leaf walk driven by the draw `r`.
All three are read-only queries, so they are modelled as function fields. -/
structure Kialo where
  closest_claims : String → Nat → String → List String
  cons : String → List String
  random_chain : Nat → List String

/-- The result of one embedded `response` call: the returned text (or the
escaping exception), the trace of collaborator calls made, and the final
values of the agent object and of the dialogue argument, so that mutation
(or its absence) is part of the observable outcome. -/
structure Outcome (σ : Type) where
  result : Except Err String
  events : List Event
  agent : σ
  dialogue : Dialogue
deriving Repr

/-- Python's `random.choice(xs)` given a draw `r`: raises `IndexError` on an
empty sequence, otherwise selects the element at index `r % xs.length`.
A uniform draw `r` induces the uniform choice among the elements. -/
def pyChoice (xs : List α) (r : Nat) : Except Err α :=
  if h : xs.length = 0 then .error .indexError
  else .ok (xs.get ⟨r % xs.length, Nat.mod_lt r (Nat.pos_of_ne_zero h)⟩)

/-- Python's `str.strip()` with no argument: remove leading and trailing
whitespace characters, modelled on the string's character list. -/
def pyStrip (s : String) : String :=
  ⟨((s.data.dropWhile Char.isWhitespace).reverse.dropWhile
      Char.isWhitespace).reverse⟩

/-- `KialoAgent` from `argubots.py`: holds a name and a `Kialo` database. -/
structure KialoAgent where
  name : String
  kialo : Kialo

/-- Shallow embedding of `KialoAgent.response` from `argubots.py`.  The
draws `r0 r1 r2` feed, in program order, `random_chain`, the
`random.choice` among the retrieved neighbors, and the `random.choice`
among that neighbor's con children.  On an empty dialogue it returns the
first claim of a random chain; otherwise it queries
`closest_claims(previous_turn, n=3, kind='has_cons')`, asserts the result
non-empty, picks a neighbor, and picks one of its con arguments. -/
def KialoAgent.response (a : KialoAgent) (r0 r1 r2 : Nat) (d : Dialogue) :
    Outcome KialoAgent :=
  if d.length = 0 then
    let chain := a.kialo.random_chain r0
    match chain[0]? with
    | none => ⟨.error .indexError, [.randomChainCall], a, d⟩
    | some claim => ⟨.ok claim, [.randomChainCall], a, d⟩
  else
    match d.getLast? with
    | none => ⟨.error .indexError, [], a, d⟩
    | some t =>
      let previous_turn := t.content
      let neighbors := a.kialo.closest_claims previous_turn 3 "has_cons"
      let trace : List Event := [.closestCall previous_turn 3 "has_cons"]
      if neighbors.length = 0 then
        ⟨.error (.assertionError
          "No claims to choose from; is Kialo data structure empty?"),
         trace, a, d⟩
      else
        match pyChoice neighbors r1 with
        | .error e => ⟨.error e, trace, a, d⟩
        | .ok neighbor =>
          match pyChoice (a.kialo.cons neighbor) r2 with
          | .error e => ⟨.error e, trace, a, d⟩
          | .ok claim => ⟨.ok claim, trace, a, d⟩

/-- `ContextualKialoAgent` from `argubots.py`: a subclass of `KialoAgent`
that adds no fields (it inherits `__init__`), so it has the same record
shape. -/
structure ContextualKialoAgent where
  name : String
  kialo : Kialo

/-- The query `ContextualKialoAgent.response` retrieves with, verbatim from
`argubots.py`: `" ".join(history[-3:])` where `history` is the list of all
turn contents; i.e. the contents of the last up-to-3 turns, in transcript
order, joined by single spaces. -/
def contextualQuery (d : Dialogue) : String :=
  let history := d.map (fun turn => turn.content)
  String.intercalate " " (history.drop (history.length - 3))

/-- Shallow embedding of `ContextualKialoAgent.response` from
`argubots.py`: joins the contents of the last up-to-3 turns (in transcript
order, separated by single spaces) into the query, retrieves
`closest_claims(query, n=3, kind="has_cons")`, and returns a
`random.choice` among the results, or the fixed apology string when the
result list is empty.  The draw `r1` feeds the `random.choice`. -/
def ContextualKialoAgent.response (a : ContextualKialoAgent) (r1 : Nat)
    (d : Dialogue) : Outcome ContextualKialoAgent :=
  let weighted_query := contextualQuery d
  let results := a.kialo.closest_claims weighted_query 3 "has_cons"
  let trace : List Event := [.closestCall weighted_query 3 "has_cons"]
  if results.length = 0 then
    ⟨.ok "I'm sorry, I couldn't find a relevant response.", trace, a, d⟩
  else
    match pyChoice results r1 with
    | .error e => ⟨.error e, trace, a, d⟩
    | .ok reply => ⟨.ok reply, trace, a, d⟩

/-- The chat-completion capability held in the `client` field: a request is
a message list plus a model identifier, and yields the content of
`choices[0].message` or fails.  `argubots.py` uses the client only through
`client.chat.completions.create(messages=..., model=...)`. -/
abbrev Client := Messages → String → Except Err String

/-- `RAGAgent` from `argubots.py`: an `LLMAgent` subclass holding a name,
a model identifier, a chat client, and a `Kialo` database. -/
structure RAGAgent where
  name : String
  model : String
  client : Client
  kialo : Kialo

/-- The last turn's content as `argubots.py` computes it in both
`RAGAgent.response` and `AwsomAgent.response`:
`d[-1]["content"] if d else ""`. -/
def lastTurnContent (d : Dialogue) : String :=
  match d.getLast? with
  | some t => t.content
  | none => ""

/-- The message list of `RAGAgent.response`'s first (paraphrase) chat call,
verbatim from `argubots.py`. -/
def ragParaphrasePrompt (last_turn : String) : Messages :=
  [⟨"system",
    "Paraphrase the following statement to make it more explicit and detailed:"⟩,
   ⟨"user", last_turn⟩]

/-- The message list of `RAGAgent.response`'s second (final) chat call,
verbatim from `argubots.py`: the retrieved claims joined into the system
message, the original last turn as the user message. -/
def ragFinalPrompt (claims_summary last_turn : String) : Messages :=
  [⟨"system",
    "Generate a response based on the user's statement and the following related claims:\n"
      ++ claims_summary⟩,
   ⟨"user", last_turn⟩]

/-- Shallow embedding of `RAGAgent.response` from `argubots.py`: (1) asks
the client to paraphrase the last turn (the empty string when the dialogue
is empty) into a more explicit statement; (2) retrieves
`closest_claims(explicit_statement, kind="has_cons", n=3)`; (3) asks the
client again with the retrieved claims joined into the system message and
the original last turn as the user message, returning that (stripped)
content.  A failing chat call escapes as its error. -/
def RAGAgent.response (a : RAGAgent) (d : Dialogue) : Outcome RAGAgent :=
  let last_turn := lastTurnContent d
  let p1 := ragParaphrasePrompt last_turn
  match a.client p1 a.model with
  | .error e => ⟨.error e, [.genCall p1 a.model], a, d⟩
  | .ok c1 =>
    let explicit_statement := (pyStrip c1)
    let related_claims := a.kialo.closest_claims explicit_statement 3 "has_cons"
    let claims_summary := String.intercalate "\n" related_claims
    let p2 := ragFinalPrompt claims_summary last_turn
    let trace : List Event :=
      [.genCall p1 a.model,
       .closestCall explicit_statement 3 "has_cons",
       .genCall p2 a.model]
    match a.client p2 a.model with
    | .error e => ⟨.error e, trace, a, d⟩
    | .ok c2 => ⟨.ok (pyStrip c2), trace, a, d⟩

/-- `AwsomAgent` from `argubots.py`: an `LLMAgent` subclass holding a name,
a model identifier and a chat client. -/
structure AwsomAgent where
  name : String
  model : String
  client : Client

/-- The message list of `AwsomAgent.response`'s first (private analysis)
chat call, verbatim from `argubots.py`. -/
def awsomThoughtPrompt (last_turn : String) : Messages :=
  [⟨"system",
    "You are a helpful assistant that analyzes dialogue to infer intent and emotional tone."⟩,
   ⟨"user",
    "Analyze the following human statement and summarize their intent, tone, and possible motivations: "
      ++ last_turn⟩]

/-- The message list of `AwsomAgent.response`'s second (public response)
chat call, verbatim from `argubots.py`: the private analysis and the
original last turn interpolated into the user message. -/
def awsomResponsePrompt (private_thought last_turn : String) : Messages :=
  [⟨"system",
    "You are an assistant that responds thoughtfully to human dialogue based on analyzed context."⟩,
   ⟨"user",
    "Using the following analysis: " ++ private_thought
      ++ ", generate a helpful and contextually appropriate response to the statement: "
      ++ last_turn⟩]

/-- Shallow embedding of `AwsomAgent.response` from `argubots.py`: (1) asks
the client to analyze the last turn (the empty string when the dialogue is
empty) for intent and tone, keeping the (stripped) answer as the private
thought; (2) asks the client again for a public response conditioned on
that analysis plus the original turn, and returns that (stripped) content.
No retrieval happens.  A failing chat call escapes as its error. -/
def AwsomAgent.response (a : AwsomAgent) (d : Dialogue) : Outcome AwsomAgent :=
  let last_turn := lastTurnContent d
  let thought_prompt := awsomThoughtPrompt last_turn
  match a.client thought_prompt a.model with
  | .error e => ⟨.error e, [.genCall thought_prompt a.model], a, d⟩
  | .ok c1 =>
    let private_thought := (pyStrip c1)
    let response_prompt := awsomResponsePrompt private_thought last_turn
    let trace : List Event :=
      [.genCall thought_prompt a.model, .genCall response_prompt a.model]
    match a.client response_prompt a.model with
    | .error e => ⟨.error e, trace, a, d⟩
    | .ok c2 => ⟨.ok (pyStrip c2), trace, a, d⟩

/-! ## Concrete instances

Small concrete databases, clients and dialogues on which the theorems are
evaluated. -/

/-- A concrete `Kialo` database: retrieval always finds the single claim
`"A"`, whose only con child is `"C"`. -/
def kialoAC : Kialo where
  closest_claims := fun _ _ _ => ["A"]
  cons := fun c => if c = "A" then ["C"] else []
  random_chain := fun _ => ["A"]

/-- A concrete `Kialo` database whose retrieval never finds anything. -/
def kialoNone : Kialo where
  closest_claims := fun _ _ _ => []
  cons := fun _ => []
  random_chain := fun _ => []

/-- A chat client that returns the same fixed content for every request. -/
def clientConst (s : String) : Client := fun _ _ => .ok s

/-- A chat client that fails every request with the payload `"boom"`. -/
def clientBoom : Client := fun _ _ => .error (.genError "boom")

/-- A chat client that answers the paraphrase request for the turn `"hi"`
and fails every other request, exhibiting a failure of the final call. -/
def clientFailFinal : Client := fun msgs _ =>
  if msgs = ragParaphrasePrompt "hi" then .ok "paraphrase"
  else .error (.genError "boom")

/-- A chat client that answers the analysis request for the turn `"hi"`
and fails every other request, exhibiting a failure of the second call of
`AwsomAgent.response`. -/
def clientFailSecond : Client := fun msgs _ =>
  if msgs = awsomThoughtPrompt "hi" then .ok "analysis"
  else .error (.genError "boom")

/-- A one-turn dialogue whose last turn says `"hi"`. -/
def dHi : Dialogue := [⟨"user", "hi"⟩]

/-! ## Helper lemmas -/

/-- Unfolding lemma for `pyChoice` on a non-empty list: the draw `r`
selects the element at index `r % xs.length`. -/
theorem pyChoice_ok (xs : List α) (r : Nat) (d0 : α) (h : xs ≠ []) :
    pyChoice xs r = .ok (xs.getD (r % xs.length) d0) := by
  have hl : xs.length ≠ 0 := fun h0 => h (List.length_eq_zero.mp h0)
  have hb : r % xs.length < xs.length := Nat.mod_lt r (Nat.pos_of_ne_zero hl)
  unfold pyChoice
  rw [dif_neg hl, List.getD_eq_get xs d0 hb]

/-- A dialogue extended by one turn is non-empty and its last turn is the
appended one. -/
theorem dialogue_concat_getLast (ds : Dialogue) (t : Turn) :
    (ds ++ [t]).length ≠ 0 ∧ (ds ++ [t]).getLast? = some t := by
  refine ⟨by simp, List.getLast?_concat ds⟩

/-- `pyChoice` can only fail with `IndexError` (on an empty sequence). -/
theorem pyChoice_error_eq (xs : List α) (r : Nat) (e : Err)
    (h : pyChoice xs r = .error e) : e = .indexError := by
  unfold pyChoice at h
  split at h <;> simp_all

/-! ## C1: Corpus-Lookup response on a non-empty dialogue -/

/-- C1: for every non-empty dialogue (written `ds ++ [t]`), the
Corpus-Lookup agent uses exactly the most recent turn's text `t.content`
as the retrieval query, requests 3 candidates of kind `"has_cons"` (claims
having con-arguments) — visible in the event trace — picks the candidate
at index `r1 % neighbors.length` (the uniform choice under a uniform draw
`r1`), then picks the con child at index `r2 % cons.length` (uniform under
`r2`), and returns that opposing claim's text. -/
theorem kialoAgent_uses_last_turn (a : KialoAgent) (ds : Dialogue) (t : Turn)
    (r0 r1 r2 : Nat) (neighbors : List String)
    (hne : neighbors = a.kialo.closest_claims t.content 3 "has_cons")
    (hn : neighbors ≠ [])
    (neighbor : String)
    (hnb : neighbor = neighbors.getD (r1 % neighbors.length) "")
    (hc : a.kialo.cons neighbor ≠ []) :
    KialoAgent.response a r0 r1 r2 (ds ++ [t]) =
      ⟨.ok ((a.kialo.cons neighbor).getD (r2 % (a.kialo.cons neighbor).length) ""),
       [.closestCall t.content 3 "has_cons"], a, ds ++ [t]⟩ := by
  obtain ⟨hlen, hlast⟩ := dialogue_concat_getLast ds t
  have hnlen : neighbors.length ≠ 0 := fun h0 => hn (List.length_eq_zero.mp h0)
  simp only [KialoAgent.response, hlast, if_neg hlen, ← hne, if_neg hnlen,
    pyChoice_ok neighbors r1 "" hn, ← hnb,
    pyChoice_ok (a.kialo.cons neighbor) r2 "" hc]

/-- Witness for C1 at a concrete input: database `kialoAC`, dialogue
`[] ++ [("user", "hello")]`, draws `0, 0, 0`; the response is the con
child `"C"` of the retrieved claim `"A"`. -/
theorem kialoAgent_uses_last_turn_witness :
    KialoAgent.response ⟨"Akiko", kialoAC⟩ 0 0 0 ([] ++ [⟨"user", "hello"⟩]) =
      ⟨.ok "C", [.closestCall "hello" 3 "has_cons"], ⟨"Akiko", kialoAC⟩,
       [] ++ [⟨"user", "hello"⟩]⟩ := by
  have h := kialoAgent_uses_last_turn ⟨"Akiko", kialoAC⟩ [] ⟨"user", "hello"⟩
    0 0 0 ["A"] rfl (by decide) "A" (by decide) (by decide)
  rw [h]
  rfl

/-! ## C8: the assertion guarding empty retrieval in Corpus-Lookup -/

/-- C8: on a non-empty dialogue `ds ++ [t]`, if retrieval yields the empty
candidate list, `KialoAgent.response` halts with the `assert` failure (an
`AssertionError`, a programmer-error invariant violation, not a returned
text); and whenever retrieval yields a non-empty list, the assertion never
fires — the result is never an `AssertionError`. -/
theorem kialoAgent_assert_on_empty_retrieval (a : KialoAgent) (ds : Dialogue)
    (t : Turn) (r0 r1 r2 : Nat) :
    (a.kialo.closest_claims t.content 3 "has_cons" = [] →
      KialoAgent.response a r0 r1 r2 (ds ++ [t]) =
        ⟨.error (.assertionError
          "No claims to choose from; is Kialo data structure empty?"),
         [.closestCall t.content 3 "has_cons"], a, ds ++ [t]⟩) ∧
    (a.kialo.closest_claims t.content 3 "has_cons" ≠ [] →
      ∀ m, (KialoAgent.response a r0 r1 r2 (ds ++ [t])).result ≠
        .error (.assertionError m)) := by
  obtain ⟨hlen, hlast⟩ := dialogue_concat_getLast ds t
  constructor
  · intro h
    simp only [KialoAgent.response, hlast, if_neg hlen, h, List.length_nil,
      if_pos rfl, if_true]
  · intro hn m
    have hnlen : (a.kialo.closest_claims t.content 3 "has_cons").length ≠ 0 :=
      fun h0 => hn (List.length_eq_zero.mp h0)
    simp only [KialoAgent.response, hlast, if_neg hlen, if_neg hnlen,
      pyChoice_ok (a.kialo.closest_claims t.content 3 "has_cons") r1 "" hn]
    rcases h2 : pyChoice (a.kialo.cons
        ((a.kialo.closest_claims t.content 3 "has_cons").getD
          (r1 % (a.kialo.closest_claims t.content 3 "has_cons").length) "")) r2 with e | c
    · have he := pyChoice_error_eq _ r2 e h2
      subst he
      simp
    · simp

/-- Witness for C8 at concrete inputs: on the empty-retrieval database
`kialoNone` the assertion fires, and on `kialoAC` (non-empty retrieval) the
result is not an assertion failure. -/
theorem kialoAgent_assert_witness :
    KialoAgent.response ⟨"Akiko", kialoNone⟩ 0 0 0 ([] ++ [⟨"user", "hello"⟩]) =
      ⟨.error (.assertionError
        "No claims to choose from; is Kialo data structure empty?"),
       [.closestCall "hello" 3 "has_cons"], ⟨"Akiko", kialoNone⟩,
       [] ++ [⟨"user", "hello"⟩]⟩ ∧
    (KialoAgent.response ⟨"Akiko", kialoAC⟩ 0 0 0 ([] ++ [⟨"user", "hello"⟩])).result ≠
      .error (.assertionError
        "No claims to choose from; is Kialo data structure empty?") :=
  ⟨(kialoAgent_assert_on_empty_retrieval ⟨"Akiko", kialoNone⟩ [] ⟨"user", "hello"⟩
      0 0 0).1 rfl,
   (kialoAgent_assert_on_empty_retrieval ⟨"Akiko", kialoAC⟩ [] ⟨"user", "hello"⟩
      0 0 0).2 (by decide) _⟩

/-! ## C5: Contextual-Lookup's documented fallback on empty retrieval -/

/-- C5: for every non-empty dialogue, if retrieval with the windowed query
returns no candidates, `ContextualKialoAgent.response` returns the fixed
fallback string (as an ordinary `.ok` result, not an error). -/
theorem contextual_fallback (a : ContextualKialoAgent) (r1 : Nat)
    (d : Dialogue) (hd : d ≠ [])
    (h : a.kialo.closest_claims (contextualQuery d) 3 "has_cons" = []) :
    ContextualKialoAgent.response a r1 d =
      ⟨.ok "I'm sorry, I couldn't find a relevant response.",
       [.closestCall (contextualQuery d) 3 "has_cons"], a, d⟩ := by
  simp only [ContextualKialoAgent.response, h, List.length_nil, if_pos rfl,
    if_true]

/-- Witness for C5 at a concrete input: a one-turn dialogue against the
empty-retrieval database `kialoNone`. -/
theorem contextual_fallback_witness :
    ContextualKialoAgent.response ⟨"Akiki", kialoNone⟩ 0 dHi =
      ⟨.ok "I'm sorry, I couldn't find a relevant response.",
       [.closestCall (contextualQuery dHi) 3 "has_cons"], ⟨"Akiki", kialoNone⟩,
       dHi⟩ :=
  contextual_fallback ⟨"Akiki", kialoNone⟩ 0 dHi (by decide) rfl

/-! ## C2: Contextual-Lookup returns the candidate itself, not a con child -/

/-- C2 counterexample: against the database `kialoAC` (retrieval finds the
single claim `"A"`, whose only con child is `"C"`), on the one-turn
dialogue `[("user", "hello")]` the Contextual-Lookup agent returns the
candidate claim `"A"` itself — not the text of any opposing (con) child of
a retrieved candidate, since `"A"` is not among `cons "A" = ["C"]`.  This
refutes the claim that it returns an opposing child's text "exactly as
Corpus-Lookup does". -/
theorem contextual_returns_candidate_counterexample :
    (ContextualKialoAgent.response ⟨"Akiki", kialoAC⟩ 0
        [⟨"user", "hello"⟩]).result = .ok "A" ∧
    kialoAC.closest_claims (contextualQuery [⟨"user", "hello"⟩]) 3 "has_cons"
      = ["A"] ∧
    kialoAC.cons "A" = ["C"] ∧
    "A" ∉ kialoAC.cons "A" := by
  refine ⟨rfl, rfl, rfl, by decide⟩

/-- C2 amended: the Contextual-Lookup agent differs from Corpus-Lookup in
its query — the space-joined concatenation, in transcript order, of the
contents of the last up-to-3 turns — and also in what it returns: when
candidates exist it returns the text of the uniformly chosen candidate
claim itself (index `r1 % results.length` under the uniform draw `r1`),
not a con child of it. -/
theorem contextual_response_spec (a : ContextualKialoAgent) (r1 : Nat)
    (d : Dialogue) (results : List String)
    (hr : results = a.kialo.closest_claims (contextualQuery d) 3 "has_cons")
    (hn : results ≠ []) :
    ContextualKialoAgent.response a r1 d =
      ⟨.ok (results.getD (r1 % results.length) ""),
       [.closestCall (contextualQuery d) 3 "has_cons"], a, d⟩ := by
  have hnlen : results.length ≠ 0 := fun h0 => hn (List.length_eq_zero.mp h0)
  simp only [ContextualKialoAgent.response, ← hr, if_neg hnlen,
    pyChoice_ok results r1 "" hn]

/-- Witness for C2's amended claim at a concrete input: database `kialoAC`,
one-turn dialogue, draw `0`; the response is the candidate `"A"` itself. -/
theorem contextual_response_spec_witness :
    ContextualKialoAgent.response ⟨"Akiki", kialoAC⟩ 0 [⟨"user", "hello"⟩] =
      ⟨.ok "A", [.closestCall (contextualQuery [⟨"user", "hello"⟩]) 3 "has_cons"],
       ⟨"Akiki", kialoAC⟩, [⟨"user", "hello"⟩]⟩ := by
  have h := contextual_response_spec ⟨"Akiki", kialoAC⟩ 0 [⟨"user", "hello"⟩]
    ["A"] rfl (by decide)
  rw [h]
  rfl

/-! ## C3: RAG staging — paraphrase, retrieve, generate -/

/-- C3: `RAGAgent.response` performs exactly two generation calls and one
retrieval, in this order — visible in the event trace — (1) a chat call
with the paraphrase prompt around the last turn; (2) a retrieval of up to
3 claims of kind `"has_cons"` queried with the (stripped) explicit
statement the first call produced; (3) a chat call whose messages contain
the retrieved claims joined into the system message together with the
original last turn; and it returns the (stripped) content of that second
generation call. -/
theorem rag_two_calls_one_retrieval (a : RAGAgent) (d : Dialogue)
    (c1 c2 : String)
    (h1 : a.client (ragParaphrasePrompt (lastTurnContent d)) a.model = .ok c1)
    (h2 : a.client
      (ragFinalPrompt
        (String.intercalate "\n" (a.kialo.closest_claims (pyStrip c1) 3 "has_cons"))
        (lastTurnContent d)) a.model = .ok c2) :
    RAGAgent.response a d =
      ⟨.ok (pyStrip c2),
       [.genCall (ragParaphrasePrompt (lastTurnContent d)) a.model,
        .closestCall (pyStrip c1) 3 "has_cons",
        .genCall (ragFinalPrompt
          (String.intercalate "\n" (a.kialo.closest_claims (pyStrip c1) 3 "has_cons"))
          (lastTurnContent d)) a.model],
       a, d⟩ := by
  simp only [RAGAgent.response, h1, h2]

/-- Witness for C3 at a concrete input: the client answers every request
with `"text"`; the retrieval for `"text"` finds `["A"]`, and the final
response is `"text"`. -/
theorem rag_two_calls_one_retrieval_witness :
    RAGAgent.response ⟨"Aragorn", "m", clientConst "text", kialoAC⟩ dHi =
      ⟨.ok "text",
       [.genCall (ragParaphrasePrompt "hi") "m",
        .closestCall "text" 3 "has_cons",
        .genCall (ragFinalPrompt "A" "hi") "m"],
       ⟨"Aragorn", "m", clientConst "text", kialoAC⟩, dHi⟩ := by
  have h := rag_two_calls_one_retrieval
    ⟨"Aragorn", "m", clientConst "text", kialoAC⟩ dHi "text" "text" rfl rfl
  rw [h]
  rfl

/-! ## C4: no stage identification in RAG generation failures -/

/-- C4 counterexample: with the constantly failing client `clientBoom`, the
paraphrase (first) call fails and the caller sees `genError "boom"`; with
`clientFailFinal`, the paraphrase succeeds and the final (second) call
fails, and the caller sees exactly the same error value `genError "boom"`.
The two event traces show the failures happened at different stages, yet
the reported errors are equal — failures are not reported with their stage
identified. -/
theorem rag_stage_counterexample :
    (RAGAgent.response ⟨"Aragorn", "m", clientBoom, kialoAC⟩ dHi).result
      = .error (.genError "boom") ∧
    (RAGAgent.response ⟨"Aragorn", "m", clientBoom, kialoAC⟩ dHi).events
      = [.genCall (ragParaphrasePrompt "hi") "m"] ∧
    (RAGAgent.response ⟨"Aragorn", "m", clientFailFinal, kialoAC⟩ dHi).result
      = .error (.genError "boom") ∧
    (RAGAgent.response ⟨"Aragorn", "m", clientFailFinal, kialoAC⟩ dHi).events
      = [.genCall (ragParaphrasePrompt "hi") "m",
         .closestCall "paraphrase" 3 "has_cons",
         .genCall (ragFinalPrompt "A" "hi") "m"] ∧
    (RAGAgent.response ⟨"Aragorn", "m", clientBoom, kialoAC⟩ dHi).result
      = (RAGAgent.response ⟨"Aragorn", "m", clientFailFinal, kialoAC⟩ dHi).result :=
  ⟨rfl, rfl, rfl, rfl, rfl⟩

/-- C4 amended: a failure of either generation call of `RAGAgent.response`
propagates to the caller as the client's error value, unchanged and with no
stage identification attached; a paraphrase-stage failure additionally
stops the method before the retrieval and the final call. -/
theorem rag_error_propagation (a : RAGAgent) (d : Dialogue) (e : Err) :
    (a.client (ragParaphrasePrompt (lastTurnContent d)) a.model = .error e →
      (RAGAgent.response a d).result = .error e ∧
      (RAGAgent.response a d).events =
        [.genCall (ragParaphrasePrompt (lastTurnContent d)) a.model]) ∧
    (∀ c1, a.client (ragParaphrasePrompt (lastTurnContent d)) a.model = .ok c1 →
      a.client (ragFinalPrompt
        (String.intercalate "\n" (a.kialo.closest_claims (pyStrip c1) 3 "has_cons"))
        (lastTurnContent d)) a.model = .error e →
      (RAGAgent.response a d).result = .error e) := by
  constructor
  · intro h
    constructor <;> simp only [RAGAgent.response, h]
  · intro c1 h1 h2
    simp only [RAGAgent.response, h1, h2]

/-- Witness for C4's amended claim at a concrete input: both the
paraphrase-stage failure (client `clientBoom`) and the final-stage failure
(client `clientFailFinal`) surface `genError "boom"` to the caller. -/
theorem rag_error_propagation_witness :
    (RAGAgent.response ⟨"Aragorn", "m", clientBoom, kialoAC⟩ dHi).result
      = .error (.genError "boom") ∧
    (RAGAgent.response ⟨"Aragorn", "m", clientFailFinal, kialoAC⟩ dHi).result
      = .error (.genError "boom") :=
  ⟨(rag_error_propagation ⟨"Aragorn", "m", clientBoom, kialoAC⟩ dHi
      (.genError "boom")).1 rfl |>.1,
   (rag_error_propagation ⟨"Aragorn", "m", clientFailFinal, kialoAC⟩ dHi
      (.genError "boom")).2 "paraphrase" rfl rfl⟩

/-! ## C6: Awsom private reasoning stays private -/

/-- C6: `AwsomAgent.response` performs two staged generation calls and no
retrieval (the event trace contains exactly the two chat requests and no
`closestCall`), and returns exactly the whitespace-stripped content `c2` of
the second call: the private analysis `c1` of the first call is not the
returned value (it reaches the second call only inside its prompt) and the
dialogue comes back unchanged, so the analysis is never appended to the
transcript. -/
theorem awsom_two_calls_no_retrieval (a : AwsomAgent) (d : Dialogue)
    (c1 c2 : String)
    (h1 : a.client (awsomThoughtPrompt (lastTurnContent d)) a.model = .ok c1)
    (h2 : a.client (awsomResponsePrompt (pyStrip c1) (lastTurnContent d))
      a.model = .ok c2) :
    AwsomAgent.response a d =
      ⟨.ok (pyStrip c2),
       [.genCall (awsomThoughtPrompt (lastTurnContent d)) a.model,
        .genCall (awsomResponsePrompt (pyStrip c1) (lastTurnContent d)) a.model],
       a, d⟩ := by
  simp only [AwsomAgent.response, h1, h2]

/-- Witness for C6 at a concrete input: the client answers every request
with `"text"`; the returned value is the second call's content `"text"`
and the trace holds exactly two chat requests. -/
theorem awsom_two_calls_no_retrieval_witness :
    AwsomAgent.response ⟨"Awsom", "m", clientConst "text"⟩ dHi =
      ⟨.ok "text",
       [.genCall (awsomThoughtPrompt "hi") "m",
        .genCall (awsomResponsePrompt "text" "hi") "m"],
       ⟨"Awsom", "m", clientConst "text"⟩, dHi⟩ := by
  have h := awsom_two_calls_no_retrieval ⟨"Awsom", "m", clientConst "text"⟩
    dHi "text" "text" rfl rfl
  rw [h]
  rfl

/-! ## C7: generation failures leave no partial output and are not retried -/

/-- C7: if any generation call of `RAGAgent.response` or
`AwsomAgent.response` fails with error `e`, the method returns no text:
the whole outcome is the propagated `.error e`, and the event trace shows
each request was issued exactly once with nothing issued after the failing
one — no retry and no partial output inside the single response call. -/
theorem gen_failure_no_partial_output (a : RAGAgent) (b : AwsomAgent)
    (d : Dialogue) (e : Err) :
    (a.client (ragParaphrasePrompt (lastTurnContent d)) a.model = .error e →
      RAGAgent.response a d =
        ⟨.error e, [.genCall (ragParaphrasePrompt (lastTurnContent d)) a.model],
         a, d⟩) ∧
    (∀ c1, a.client (ragParaphrasePrompt (lastTurnContent d)) a.model = .ok c1 →
      a.client (ragFinalPrompt
        (String.intercalate "\n" (a.kialo.closest_claims (pyStrip c1) 3 "has_cons"))
        (lastTurnContent d)) a.model = .error e →
      RAGAgent.response a d =
        ⟨.error e,
         [.genCall (ragParaphrasePrompt (lastTurnContent d)) a.model,
          .closestCall (pyStrip c1) 3 "has_cons",
          .genCall (ragFinalPrompt
            (String.intercalate "\n" (a.kialo.closest_claims (pyStrip c1) 3 "has_cons"))
            (lastTurnContent d)) a.model],
         a, d⟩) ∧
    (b.client (awsomThoughtPrompt (lastTurnContent d)) b.model = .error e →
      AwsomAgent.response b d =
        ⟨.error e, [.genCall (awsomThoughtPrompt (lastTurnContent d)) b.model],
         b, d⟩) ∧
    (∀ c1, b.client (awsomThoughtPrompt (lastTurnContent d)) b.model = .ok c1 →
      b.client (awsomResponsePrompt (pyStrip c1) (lastTurnContent d)) b.model
        = .error e →
      AwsomAgent.response b d =
        ⟨.error e,
         [.genCall (awsomThoughtPrompt (lastTurnContent d)) b.model,
          .genCall (awsomResponsePrompt (pyStrip c1) (lastTurnContent d)) b.model],
         b, d⟩) := by
  refine ⟨fun h => ?_, fun c1 h1 h2 => ?_, fun h => ?_, fun c1 h1 h2 => ?_⟩
  · simp only [RAGAgent.response, h]
  · simp only [RAGAgent.response, h1, h2]
  · simp only [AwsomAgent.response, h]
  · simp only [AwsomAgent.response, h1, h2]

/-- Witness for C7 at concrete inputs: with the always-failing client
`clientBoom` both agents surface `genError "boom"` and issue exactly one
chat request. -/
theorem gen_failure_no_partial_output_witness :
    RAGAgent.response ⟨"Aragorn", "m", clientBoom, kialoAC⟩ dHi =
      ⟨.error (.genError "boom"), [.genCall (ragParaphrasePrompt "hi") "m"],
       ⟨"Aragorn", "m", clientBoom, kialoAC⟩, dHi⟩ ∧
    AwsomAgent.response ⟨"Awsom", "m", clientBoom⟩ dHi =
      ⟨.error (.genError "boom"), [.genCall (awsomThoughtPrompt "hi") "m"],
       ⟨"Awsom", "m", clientBoom⟩, dHi⟩ :=
  ⟨(gen_failure_no_partial_output ⟨"Aragorn", "m", clientBoom, kialoAC⟩
      ⟨"Awsom", "m", clientBoom⟩ dHi (.genError "boom")).1 rfl,
   (gen_failure_no_partial_output ⟨"Aragorn", "m", clientBoom, kialoAC⟩
      ⟨"Awsom", "m", clientBoom⟩ dHi (.genError "boom")).2.2.1 rfl⟩

/-! ## C10: the empty transcript is handled with the empty string -/

/-- C10: on the empty transcript, `RAGAgent.response` and
`AwsomAgent.response` do not special-case: the last turn's content is the
empty string, both still issue all their generation calls (and, for RAG,
the retrieval), and the empty string sits in the user position of the
first prompts (for Awsom, appended to the instruction text). -/
theorem empty_transcript_uses_empty_string (a : RAGAgent) (b : AwsomAgent)
    (c1 c2 t1 t2 : String)
    (h1 : a.client (ragParaphrasePrompt "") a.model = .ok c1)
    (h2 : a.client (ragFinalPrompt
      (String.intercalate "\n" (a.kialo.closest_claims (pyStrip c1) 3 "has_cons"))
      "") a.model = .ok c2)
    (h3 : b.client (awsomThoughtPrompt "") b.model = .ok t1)
    (h4 : b.client (awsomResponsePrompt (pyStrip t1) "") b.model = .ok t2) :
    lastTurnContent [] = "" ∧
    RAGAgent.response a [] =
      ⟨.ok (pyStrip c2),
       [.genCall (ragParaphrasePrompt "") a.model,
        .closestCall (pyStrip c1) 3 "has_cons",
        .genCall (ragFinalPrompt
          (String.intercalate "\n" (a.kialo.closest_claims (pyStrip c1) 3 "has_cons"))
          "") a.model],
       a, []⟩ ∧
    AwsomAgent.response b [] =
      ⟨.ok (pyStrip t2),
       [.genCall (awsomThoughtPrompt "") b.model,
        .genCall (awsomResponsePrompt (pyStrip t1) "") b.model],
       b, []⟩ ∧
    ragParaphrasePrompt "" =
      [⟨"system",
        "Paraphrase the following statement to make it more explicit and detailed:"⟩,
       ⟨"user", ""⟩] ∧
    awsomThoughtPrompt "" =
      [⟨"system",
        "You are a helpful assistant that analyzes dialogue to infer intent and emotional tone."⟩,
       ⟨"user",
        "Analyze the following human statement and summarize their intent, tone, and possible motivations: "⟩] := by
  refine ⟨rfl, ?_, ?_, rfl, rfl⟩
  · simp only [RAGAgent.response, lastTurnContent, List.getLast?_nil, h1, h2]
  · simp only [AwsomAgent.response, lastTurnContent, List.getLast?_nil, h3, h4]

/-- Witness for C10 at a concrete input: the constant client answers
`"text"` on the empty transcript for both agents. -/
theorem empty_transcript_uses_empty_string_witness :
    lastTurnContent [] = "" ∧
    (RAGAgent.response ⟨"Aragorn", "m", clientConst "text", kialoAC⟩ []).result
      = .ok "text" ∧
    (AwsomAgent.response ⟨"Awsom", "m", clientConst "text"⟩ []).result
      = .ok "text" := by
  have h := empty_transcript_uses_empty_string
    ⟨"Aragorn", "m", clientConst "text", kialoAC⟩ ⟨"Awsom", "m", clientConst "text"⟩
    "text" "text" "text" "text" rfl rfl rfl rfl
  refine ⟨h.1, ?_, ?_⟩
  · rw [h.2.1]
    rfl
  · rw [h.2.2.1]
    rfl

/-! ## C9: every response is read-only on the agent and the dialogue -/

/-- The Corpus-Lookup response leaves the agent object and the dialogue
unchanged on every execution path. -/
theorem kialoAgent_state_inv (a : KialoAgent) (r0 r1 r2 : Nat) (d : Dialogue) :
    (KialoAgent.response a r0 r1 r2 d).agent = a ∧
    (KialoAgent.response a r0 r1 r2 d).dialogue = d := by
  simp only [KialoAgent.response]
  split
  · split <;> exact ⟨rfl, rfl⟩
  · split
    · exact ⟨rfl, rfl⟩
    · split
      · exact ⟨rfl, rfl⟩
      · split
        · exact ⟨rfl, rfl⟩
        · split <;> exact ⟨rfl, rfl⟩

/-- The Contextual-Lookup response leaves the agent object and the dialogue
unchanged on every execution path. -/
theorem contextual_state_inv (a : ContextualKialoAgent) (r1 : Nat)
    (d : Dialogue) :
    (ContextualKialoAgent.response a r1 d).agent = a ∧
    (ContextualKialoAgent.response a r1 d).dialogue = d := by
  simp only [ContextualKialoAgent.response]
  split
  · exact ⟨rfl, rfl⟩
  · split <;> exact ⟨rfl, rfl⟩

/-- The RAG response leaves the agent object and the dialogue unchanged on
every execution path. -/
theorem rag_state_inv (a : RAGAgent) (d : Dialogue) :
    (RAGAgent.response a d).agent = a ∧ (RAGAgent.response a d).dialogue = d := by
  simp only [RAGAgent.response]
  split
  · exact ⟨rfl, rfl⟩
  · split <;> exact ⟨rfl, rfl⟩

/-- The Awsom response leaves the agent object and the dialogue unchanged
on every execution path. -/
theorem awsom_state_inv (a : AwsomAgent) (d : Dialogue) :
    (AwsomAgent.response a d).agent = a ∧
    (AwsomAgent.response a d).dialogue = d := by
  simp only [AwsomAgent.response]
  split
  · exact ⟨rfl, rfl⟩
  · split <;> exact ⟨rfl, rfl⟩

/-- C9: every agent variant's response is stateless and read-only — for
every dialogue, every draw and every client outcome, the agent object
(with its name, corpus reference, model and client fields) and the
dialogue come out of the call exactly as they went in, so a call's
observable behavior depends only on the transcript argument, the draws
and the client's answers. -/
theorem agents_stateless (a : KialoAgent) (b : ContextualKialoAgent)
    (c : RAGAgent) (w : AwsomAgent) (r0 r1 r2 s1 : Nat) (d : Dialogue) :
    ((KialoAgent.response a r0 r1 r2 d).agent = a ∧
     (KialoAgent.response a r0 r1 r2 d).dialogue = d) ∧
    ((ContextualKialoAgent.response b s1 d).agent = b ∧
     (ContextualKialoAgent.response b s1 d).dialogue = d) ∧
    ((RAGAgent.response c d).agent = c ∧
     (RAGAgent.response c d).dialogue = d) ∧
    ((AwsomAgent.response w d).agent = w ∧
     (AwsomAgent.response w d).dialogue = d) :=
  ⟨kialoAgent_state_inv a r0 r1 r2 d, contextual_state_inv b s1 d,
   rag_state_inv c d, awsom_state_inv w d⟩
